import Mathlib

/-!
Verification of the ThermoPro TempSpike XR TP862b/TP863b decoder
(`src/devices/thermopro_tp86xb.c`) against its natural-language
specification.

The decoder is embedded shallowly:
* a captured row is a `List Bool` (bit 0 first, MSB-first within bytes;
  bits past the end of the row read as `false`, matching the
  zero-initialised capture buffer);
* machine bytes are `Nat` values below 256, with explicit `% 256`
  truncation where the C code relies on `uint8_t` overflow;
* the C `float` temperatures are modelled by exact rationals `ℚ`
  (the conversion `(raw - 500) * 0.1f` becomes `((raw : ℚ) - 500) * (1/10)`);
* the C `int` promotion in `b[7] == ~b[8]` is made explicit: for a
  `uint8_t` value `x`, the C expression `~x` promotes to `int` and
  equals `-x - 1`, so the comparison is embedded over `ℤ`.
-/

set_option maxRecDepth 100000

namespace ThermoPro

/-- Modelled from the spec: the `crc8` helper of the host library is not
under `src/`.  The spec describes it as a standard bit-by-bit CRC-8,
MSB-first, no input/output reflection, parameterized by polynomial and
initial register value.  One shift-and-conditionally-xor step of the
8-bit remainder register (the register is a `uint8_t`, hence the `% 256`). -/
def crc8_step (poly r : ℕ) : ℕ :=
  if 128 ≤ r then (2 * r) % 256 ^^^ poly else (2 * r) % 256

/-- Modelled from the spec: processing one message byte — xor it into the
remainder register, then run 8 shift steps. -/
def crc8_byte (poly r a : ℕ) : ℕ :=
  (crc8_step poly)^[8] (r ^^^ a)

/-- Modelled from the spec: CRC-8 over a list of message bytes with the
given polynomial and initial register value. -/
def crc8 (message : List ℕ) (poly init : ℕ) : ℕ :=
  message.foldl (crc8_byte poly) init

/-- The decoded output record, mirroring the `data_make` call.  Fields
attached with `DATA_COND` in the source are `Option`s: `none` means the
field is omitted from the output. -/
structure MeasurementRecord where
  model : String
  id : ℕ
  color : String
  is_docked : Option ℕ
  temperature_int_C : ℚ
  temperature_amb_C : ℚ
  is_probe : Option ℕ
  is_booster : Option ℕ
  probe_batery : Option ℕ
  booster_battery : Option ℕ
  mic : String
deriving DecidableEq

/-- Result of one decode call.  The C function returns
`DECODE_FAIL_SANITY`, `DECODE_ABORT_LENGTH` (from two distinct branches,
short and long), `DECODE_ABORT_EARLY`, `DECODE_FAIL_MIC` (from two
distinct branches, the trailer-complement check and the CRC comparison)
or `1` with an emitted record; the constructors keep the distinct source
branches distinguishable. -/
inductive DecodeResult where
  | failSanity : DecodeResult
  | abortLengthShort : DecodeResult
  | abortLengthLong : DecodeResult
  | abortEarly : DecodeResult
  | failMicFormat : DecodeResult
  | failMicCrc : DecodeResult
  | success : MeasurementRecord → DecodeResult
deriving DecidableEq

/-- Validation and extraction applied to the extracted 9-byte window `b`
(lines 80–120 of the source).  `b.getD i 0` is `b[i]`.  The C condition
`b[7] == ~b[8]` compares the `int`-promoted values: `~b[8]` equals
`-b[8] - 1` over `int`, which the embedding writes out over `ℤ`. -/
def decodeWindow (b : List ℕ) : DecodeResult :=
  let b0 := b.getD 0 0
  let b1 := b.getD 1 0
  let b2 := b.getD 2 0
  let b3 := b.getD 3 0
  let b4 := b.getD 4 0
  let b5 := b.getD 5 0
  let b6 := b.getD 6 0
  let b7 := b.getD 7 0
  let b8 := b.getD 8 0
  -- if (b[7] == ~b[8]) return DECODE_FAIL_MIC;
  if (b7 : ℤ) = -(b8 : ℤ) - 1 then DecodeResult.failMicFormat
  else
    -- uint8_t calc_crc = crc8(b, 7, 0x07, 0x00) ^ 0xdb;
    let calc_crc := crc8 [b0, b1, b2, b3, b4, b5, b6] 0x07 0x00 ^^^ 0xdb
    if calc_crc ≠ b7 then DecodeResult.failMicCrc
    else
      let id := b0
      let is_white := (b1 &&& 0x10) >>> 4
      let is_docked := (b1 &&& 0x40) >>> 6
      let internal_raw := (b2 <<< 4) ||| (b3 >>> 4)
      let ambient_raw := ((b3 &&& 0x0f) <<< 8) ||| b4
      let is_probe : ℕ := if (b6 &&& 0x0c) = 0x0c then 1 else 0
      let is_booster : ℕ := if (b5 &&& 0xc0) = 0xc0 then 1 else 0
      let probe_battery := (b6 &&& 0x30) >>> 4
      let booster_battery := b6 &&& 0x03
      let internal_c : ℚ := ((internal_raw : ℚ) - 500) * (1 / 10)
      let ambient_c : ℚ := ((ambient_raw : ℚ) - 500) * (1 / 10)
      DecodeResult.success
        { model := "ThermoPro-TempSpikeXR"
          id := id
          color := if is_white ≠ 0 then "white" else "black"
          is_docked := if is_docked ≠ 0 then some is_docked else none
          temperature_int_C := internal_c
          temperature_amb_C := ambient_c
          is_probe := if is_probe ≠ 0 then some is_probe else none
          is_booster := if is_booster ≠ 0 then some is_booster else none
          probe_batery := if is_probe ≠ 0 then some probe_battery else none
          booster_battery := if is_booster ≠ 0 then some booster_battery else none
          mic := "CRC" }

/-- Bit `i` of a row; bits past the end of the capture read as `false`
(the capture buffer is zero-initialised). -/
def rowBit (row : List Bool) (i : ℕ) : Bool :=
  row.getD i false

/-- The 8 bits of a byte, most significant first. -/
def byteBits (a : ℕ) : List Bool :=
  (List.range 8).map (fun j => a / 2 ^ (7 - j) % 2 = 1)

/-- A byte list as a bit sequence, MSB-first within each byte. -/
def bytesToBits (bs : List ℕ) : List Bool :=
  (bs.map byteBits).flatten

/-- `uint8_t const preamble_pattern[] = {0xd2, 0x55, 0x2d, 0xd4};` -/
def preamble_pattern : List ℕ := [0xd2, 0x55, 0x2d, 0xd4]

/-- The preamble as a 32-entry bit sequence. -/
def preambleBits : List Bool := bytesToBits preamble_pattern

/-- Whether the whole bit sequence `pat` occurs in `row` starting at bit
offset `p` (the match must lie entirely within the row). -/
def matchesAt (row : List Bool) (pat : List Bool) (p : ℕ) : Bool :=
  decide (p + pat.length ≤ row.length) &&
    (List.range pat.length).all (fun j => rowBit row (p + j) == pat.getD j false)

/-- Modelled from the spec: `bitbuffer_search` of the host library is not
under `src/`.  The spec: find the first occurrence of the pattern,
searched at bit granularity; if no match is found before the end of the
buffer, the search reports the row length (which the caller compares
against `msg_len`). -/
def bitbuffer_search (row : List Bool) (pat : List Bool) : ℕ :=
  ((List.range row.length).find? (fun p => matchesAt row pat p)).getD row.length

/-- One extracted byte: 8 consecutive bits starting at bit `off`,
MSB-first; bits past the row end read as zero. -/
def extractByte (row : List Bool) (off : ℕ) : ℕ :=
  (List.range 8).foldl (fun acc j => 2 * acc + (if rowBit row (off + j) then 1 else 0)) 0

/-- Modelled from the spec: `bitbuffer_extract_bytes` of the host library
is not under `src/`.  Extracts `n` bytes starting at bit offset `off`;
bits past the row's bit length read as zero (zero-initialised buffer). -/
def bitbuffer_extract_bytes (row : List Bool) (off n : ℕ) : List ℕ :=
  (List.range n).map (fun k => extractByte row (off + 8 * k))

/-- The decode function (`thermopro_tp86xb_decode`).  `num_rows` is
`bitbuffer->num_rows`, `row` the first row's bits. -/
def thermopro_tp86xb_decode (num_rows : ℕ) (row : List Bool) : DecodeResult :=
  if 1 < num_rows then DecodeResult.failSanity
  else
    let msg_len := row.length
    if msg_len < 165 then DecodeResult.abortLengthShort
    else if 173 < msg_len then DecodeResult.abortLengthLong
    else
      let offset := bitbuffer_search row preambleBits
      if msg_len ≤ offset then DecodeResult.abortEarly
      else decodeWindow (bitbuffer_extract_bytes row (offset + 32) 9)

/-- The example window of the spec's concrete scenario: the 9 bytes
following the sync word in the capture `{74}9c9a2bc2c50b1fa8570`. -/
def c5window : List ℕ := [0x9c, 0x9a, 0x2b, 0xc2, 0xc5, 0x0b, 0x1f, 0xa8, 0x57]

/-- The record the decoder produces for `c5window`. -/
def c5record : MeasurementRecord :=
  { model := "ThermoPro-TempSpikeXR"
    id := 0x9c
    color := "white"
    is_docked := none
    temperature_int_C := 20
    temperature_amb_C := 209 / 10
    is_probe := some 1
    is_booster := none
    probe_batery := some 1
    booster_battery := none
    mic := "CRC" }

/-- A full capture row for the concrete scenario: sync word, the nine
window bytes, then zero padding up to 165 bits. -/
def c5row : List Bool :=
  bytesToBits [0xd2, 0x55, 0x2d, 0xd4, 0x9c, 0x9a, 0x2b, 0xc2, 0xc5, 0x0b, 0x1f, 0xa8, 0x57] ++
    List.replicate 61 false

/-- A 165-bit row whose sync word sits at bit offset 70, so that the
72-bit window after it would need bits up to index 173, past the row
end. -/
def c3row : List Bool :=
  List.replicate 70 false ++ preambleBits ++ List.replicate 63 false

/-- A window claiming both roles: byte 5 has its top two bits set
(`is_booster`) and byte 6 has bits `0x0c` set (`is_probe`); byte 7 is the
matching checksum `crc8 ^ 0xdb` and byte 8 its complement. -/
def c10window : List ℕ := [0x01, 0x00, 0x00, 0x00, 0x00, 0xc0, 0x0c, 0xcd, 0x32]

/-- The record the decoder produces for `c10window`. -/
def c10record : MeasurementRecord :=
  { model := "ThermoPro-TempSpikeXR"
    id := 1
    color := "black"
    is_docked := none
    temperature_int_C := -50
    temperature_amb_C := -50
    is_probe := some 1
    is_booster := some 1
    probe_batery := some 0
    booster_battery := some 0
    mic := "CRC" }

/-- Inverse of one CRC shift step (for the fixed polynomial `0x07`),
used to prove the step injective on bytes. -/
def crc8_step_inv (r : ℕ) : ℕ :=
  if r % 2 = 1 then (r ^^^ 7) / 2 + 128 else r / 2

/-! ## Helper lemmas -/

/-- The C condition `b[7] == ~b[8]` is unsatisfiable: both sides are
`int`-promoted, the left in `[0, 255]`, the right equal to `-b[8] - 1 ≤ -1`. -/
lemma trailer_check_false (b7 b8 : ℕ) : ¬((b7 : ℤ) = -(b8 : ℤ) - 1) := by omega

/-- Window validation only ever produces the two MIC failures or a
record; it never produces a length or row failure. -/
lemma decodeWindow_ne_aborts (b : List ℕ) :
    decodeWindow b ≠ DecodeResult.abortLengthShort ∧
    decodeWindow b ≠ DecodeResult.abortLengthLong ∧
    decodeWindow b ≠ DecodeResult.failSanity ∧
    decodeWindow b ≠ DecodeResult.abortEarly := by
  simp only [decodeWindow]
  split
  · simp
  · split <;> simp

/-- Masking a byte with `0x0f` takes its value modulo 16. -/
lemma and_15_eq_mod : ∀ x, x < 256 → x &&& 15 = x % 16 := by decide

/-- Or-ing a nibble into a value shifted clear of it is addition. -/
lemma or_low_nibble : ∀ a, a < 256 → ∀ z, z < 16 → a <<< 4 ||| z = a * 2 ^ 4 + z := by decide

/-- Or-ing a byte into a nibble shifted clear of it is addition. -/
lemma or_low_byte : ∀ w, w < 16 → ∀ y, y < 256 → w <<< 8 ||| y = w * 2 ^ 8 + y := by decide

/-- For bytes, the shift-and-or `b2 <<< 4 ||| b3 >>> 4` is the 12-bit
MSB-first concatenation of byte 2 with the top nibble of byte 3. -/
lemma concat_internal : ∀ x, x < 256 → ∀ y, y < 256 →
    x <<< 4 ||| y >>> 4 = x * 2 ^ 4 + y / 2 ^ 4 := by
  intro x hx y hy
  rw [Nat.shiftRight_eq_div_pow y 4]
  refine or_low_nibble x hx (y / 2 ^ 4) ?_
  have h4 : (2 : ℕ) ^ 4 = 16 := by norm_num
  omega

/-- For bytes, `(b3 &&& 0x0f) <<< 8 ||| b4` is the 12-bit MSB-first
concatenation of the bottom nibble of byte 3 with byte 4. -/
lemma concat_ambient : ∀ x, x < 256 → ∀ y, y < 256 →
    (x &&& 0x0f) <<< 8 ||| y = x % 2 ^ 4 * 2 ^ 8 + y := by
  intro x hx y hy
  rw [and_15_eq_mod x hx, or_low_byte (x % 16) (by omega) y hy]
  norm_num

/-- Reading the nine cells of a nine-element list. -/
lemma getD9_0 (y0 y1 y2 y3 y4 y5 y6 y7 y8 : ℕ) :
    [y0, y1, y2, y3, y4, y5, y6, y7, y8].getD 0 0 = y0 := rfl

lemma getD9_1 (y0 y1 y2 y3 y4 y5 y6 y7 y8 : ℕ) :
    [y0, y1, y2, y3, y4, y5, y6, y7, y8].getD 1 0 = y1 := rfl

lemma getD9_2 (y0 y1 y2 y3 y4 y5 y6 y7 y8 : ℕ) :
    [y0, y1, y2, y3, y4, y5, y6, y7, y8].getD 2 0 = y2 := rfl

lemma getD9_3 (y0 y1 y2 y3 y4 y5 y6 y7 y8 : ℕ) :
    [y0, y1, y2, y3, y4, y5, y6, y7, y8].getD 3 0 = y3 := rfl

lemma getD9_4 (y0 y1 y2 y3 y4 y5 y6 y7 y8 : ℕ) :
    [y0, y1, y2, y3, y4, y5, y6, y7, y8].getD 4 0 = y4 := rfl

lemma getD9_5 (y0 y1 y2 y3 y4 y5 y6 y7 y8 : ℕ) :
    [y0, y1, y2, y3, y4, y5, y6, y7, y8].getD 5 0 = y5 := rfl

lemma getD9_6 (y0 y1 y2 y3 y4 y5 y6 y7 y8 : ℕ) :
    [y0, y1, y2, y3, y4, y5, y6, y7, y8].getD 6 0 = y6 := rfl

lemma getD9_7 (y0 y1 y2 y3 y4 y5 y6 y7 y8 : ℕ) :
    [y0, y1, y2, y3, y4, y5, y6, y7, y8].getD 7 0 = y7 := rfl

lemma getD9_8 (y0 y1 y2 y3 y4 y5 y6 y7 y8 : ℕ) :
    [y0, y1, y2, y3, y4, y5, y6, y7, y8].getD 8 0 = y8 := rfl

/-- Xor of two bytes is a byte. -/
lemma xor_lt_256 {x y : ℕ} (hx : x < 256) (hy : y < 256) : x ^^^ y < 256 := by
  have h8 : (2 : ℕ) ^ 8 = 256 := by norm_num
  have hx' : x < 2 ^ 8 := by rw [h8]; exact hx
  have hy' : y < 2 ^ 8 := by rw [h8]; exact hy
  have := Nat.xor_lt_two_pow hx' hy'
  rw [h8] at this
  exact this

/-- The CRC step keeps the register in byte range. -/
lemma crc8_iter_lt : ∀ r, r < 256 → (crc8_step 7)^[8] r < 256 := by decide

/-- `crc8_step_inv` undoes eight CRC steps on a byte. -/
lemma crc8_iter_leftinv : ∀ r, r < 256 → crc8_step_inv^[8] ((crc8_step 7)^[8] r) = r := by
  decide

/-- Byte-processing keeps the register in byte range. -/
lemma crc8_byte_lt {r a : ℕ} (hr : r < 256) (ha : a < 256) : crc8_byte 7 r a < 256 :=
  crc8_iter_lt _ (xor_lt_256 hr ha)

lemma xor_cancel_left {a x y : ℕ} (h : a ^^^ x = a ^^^ y) : x = y := by
  have h2 := congrArg (fun t => a ^^^ t) h
  simpa [← Nat.xor_assoc, Nat.xor_self, Nat.zero_xor] using h2

lemma xor_cancel_right {x y a : ℕ} (h : x ^^^ a = y ^^^ a) : x = y := by
  have h2 := congrArg (fun t => t ^^^ a) h
  simpa [Nat.xor_assoc, Nat.xor_self, Nat.xor_zero] using h2

/-- Processing one byte is injective in the byte (register fixed). -/
lemma crc8_byte_inj_right {c x y : ℕ} (hc : c < 256) (hx : x < 256) (hy : y < 256)
    (h : crc8_byte 7 c x = crc8_byte 7 c y) : x = y := by
  have h2 := congrArg crc8_step_inv^[8] h
  simp only [crc8_byte] at h2
  rw [crc8_iter_leftinv _ (xor_lt_256 hc hx), crc8_iter_leftinv _ (xor_lt_256 hc hy)] at h2
  exact xor_cancel_left h2

/-- Processing one byte is injective in the register (byte fixed). -/
lemma crc8_byte_inj_left {a r s : ℕ} (ha : a < 256) (hr : r < 256) (hs : s < 256)
    (h : crc8_byte 7 r a = crc8_byte 7 s a) : r = s := by
  have h2 := congrArg crc8_step_inv^[8] h
  simp only [crc8_byte] at h2
  rw [crc8_iter_leftinv _ (xor_lt_256 hr ha), crc8_iter_leftinv _ (xor_lt_256 hs ha)] at h2
  exact xor_cancel_right h2

/-- Folding the CRC over a byte list is injective in the initial
register value. -/
lemma crc8_foldl_inj : ∀ (l : List ℕ), (∀ a ∈ l, a < 256) → ∀ r s : ℕ, r < 256 → s < 256 →
    l.foldl (crc8_byte 7) r = l.foldl (crc8_byte 7) s → r = s := by
  intro l
  induction l with
  | nil => intro _ r s _ _ h; simpa using h
  | cons a t ih =>
    intro hmem r s hr hs h
    simp only [List.foldl_cons] at h
    have ha : a < 256 := hmem a (List.mem_cons_self a t)
    have hmt : ∀ x ∈ t, x < 256 := fun x hx => hmem x (List.mem_cons_of_mem a hx)
    exact crc8_byte_inj_left ha hr hs
      (ih hmt _ _ (crc8_byte_lt hr ha) (crc8_byte_lt hs ha) h)

/-- Folding the CRC keeps the register in byte range. -/
lemma crc8_foldl_lt : ∀ (l : List ℕ), (∀ a ∈ l, a < 256) → ∀ r : ℕ, r < 256 →
    l.foldl (crc8_byte 7) r < 256 := by
  intro l
  induction l with
  | nil => intro _ r hr; simpa using hr
  | cons a t ih =>
    intro hmem r hr
    simp only [List.foldl_cons]
    exact ih (fun x hx => hmem x (List.mem_cons_of_mem a hx)) _
      (crc8_byte_lt hr (hmem a (List.mem_cons_self a t)))

/-- Changing one message byte by a nonzero xor changes the CRC register
after the remaining bytes are folded in. -/
lemma crc8_tail_ne (suf : List ℕ) (hsuf : ∀ a ∈ suf, a < 256) (c x v : ℕ)
    (hc : c < 256) (hx : x < 256) (hv : v < 256) (hv0 : v ≠ 0) :
    suf.foldl (crc8_byte 7) (crc8_byte 7 c x) ≠
      suf.foldl (crc8_byte 7) (crc8_byte 7 c (x ^^^ v)) := by
  intro h
  have h1 := crc8_foldl_inj suf hsuf _ _ (crc8_byte_lt hc hx)
    (crc8_byte_lt hc (xor_lt_256 hx hv)) h
  have h2 := crc8_byte_inj_right hc hx (xor_lt_256 hx hv) h1
  have h3 := congrArg (fun t => x ^^^ t) h2
  simp only [Nat.xor_self, ← Nat.xor_assoc, Nat.zero_xor] at h3
  exact hv0 h3.symm

/-- CRC-8 with polynomial `0x07` detects every single-byte xor error:
xoring one message byte with a nonzero byte value changes the CRC. -/
lemma crc8_set_ne (pre suf : List ℕ) (x v : ℕ)
    (hall : ∀ a ∈ pre ++ x :: suf, a < 256)
    (hv : v < 256) (hv0 : v ≠ 0) :
    crc8 (pre ++ (x ^^^ v) :: suf) 0x07 0x00 ≠ crc8 (pre ++ x :: suf) 0x07 0x00 := by
  have hpre : ∀ a ∈ pre, a < 256 := fun a ha => hall a (List.mem_append_left _ ha)
  have hx : x < 256 := hall x (List.mem_append_right _ (List.mem_cons_self x suf))
  have hsuf : ∀ a ∈ suf, a < 256 :=
    fun a ha => hall a (List.mem_append_right _ (List.mem_cons_of_mem x ha))
  have hc : pre.foldl (crc8_byte 7) 0 < 256 := crc8_foldl_lt pre hpre 0 (by norm_num)
  simp only [crc8, List.foldl_append, List.foldl_cons]
  exact fun h => crc8_tail_ne suf hsuf _ x v hc hx hv hv0 h.symm

/-- The success branch of `decodeWindow`, spelled out: when the CRC
comparison passes, the decoder emits the record built from the window's
bit fields. -/
lemma decodeWindow_success (b : List ℕ)
    (h : crc8 [b.getD 0 0, b.getD 1 0, b.getD 2 0, b.getD 3 0, b.getD 4 0,
        b.getD 5 0, b.getD 6 0] 0x07 0x00 ^^^ 0xdb = b.getD 7 0) :
    decodeWindow b = DecodeResult.success
      { model := "ThermoPro-TempSpikeXR"
        id := b.getD 0 0
        color := if (b.getD 1 0 &&& 0x10) >>> 4 ≠ 0 then "white" else "black"
        is_docked := if (b.getD 1 0 &&& 0x40) >>> 6 ≠ 0 then
            some ((b.getD 1 0 &&& 0x40) >>> 6) else none
        temperature_int_C :=
          (((b.getD 2 0 <<< 4 ||| b.getD 3 0 >>> 4 : ℕ) : ℚ) - 500) * (1 / 10)
        temperature_amb_C :=
          ((((b.getD 3 0 &&& 0x0f) <<< 8 ||| b.getD 4 0 : ℕ) : ℚ) - 500) * (1 / 10)
        is_probe := if (if (b.getD 6 0 &&& 0x0c) = 0x0c then (1:ℕ) else 0) ≠ 0 then
            some (if (b.getD 6 0 &&& 0x0c) = 0x0c then (1:ℕ) else 0) else none
        is_booster := if (if (b.getD 5 0 &&& 0xc0) = 0xc0 then (1:ℕ) else 0) ≠ 0 then
            some (if (b.getD 5 0 &&& 0xc0) = 0xc0 then (1:ℕ) else 0) else none
        probe_batery := if (if (b.getD 6 0 &&& 0x0c) = 0x0c then (1:ℕ) else 0) ≠ 0 then
            some ((b.getD 6 0 &&& 0x30) >>> 4) else none
        booster_battery := if (if (b.getD 5 0 &&& 0xc0) = 0xc0 then (1:ℕ) else 0) ≠ 0 then
            some (b.getD 6 0 &&& 0x03) else none
        mic := "CRC" } := by
  simp only [decodeWindow]
  rw [if_neg (trailer_check_false _ _), if_neg (fun hn => hn h)]

/-- The example window decodes to the example record. -/
lemma c5window_decodes : decodeWindow c5window = DecodeResult.success c5record := by
  rw [decodeWindow_success c5window (by decide)]
  congr 1
  have h0 : c5window.getD 0 0 = 0x9c := by decide
  have h1 : c5window.getD 1 0 = 0x9a := by decide
  have h2 : c5window.getD 2 0 = 0x2b := by decide
  have h3 : c5window.getD 3 0 = 0xc2 := by decide
  have h4 : c5window.getD 4 0 = 0xc5 := by decide
  have h5 : c5window.getD 5 0 = 0x0b := by decide
  have h6 : c5window.getD 6 0 = 0x1f := by decide
  have e1 : ((154:ℕ) &&& 16) >>> 4 = 1 := by decide
  have e2 : ((154:ℕ) &&& 64) >>> 6 = 0 := by decide
  have e3 : (43:ℕ) <<< 4 ||| 194 >>> 4 = 700 := by decide
  have e4 : ((194:ℕ) &&& 15) <<< 8 ||| 197 = 709 := by decide
  have e5 : (31:ℕ) &&& 12 = 12 := by decide
  have e6 : (11:ℕ) &&& 192 = 0 := by decide
  have e7 : ((31:ℕ) &&& 48) >>> 4 = 1 := by decide
  have e8 : (31:ℕ) &&& 3 = 3 := by decide
  simp only [h0, h1, h2, h3, h4, h5, h6, c5record, e1, e2, e3, e4, e5, e6, e7, e8]
  norm_num

/-- The dual-role window decodes to the dual-role record. -/
lemma c10window_decodes : decodeWindow c10window = DecodeResult.success c10record := by
  rw [decodeWindow_success c10window (by decide)]
  congr 1
  have h0 : c10window.getD 0 0 = 0x01 := by decide
  have h1 : c10window.getD 1 0 = 0x00 := by decide
  have h2 : c10window.getD 2 0 = 0x00 := by decide
  have h3 : c10window.getD 3 0 = 0x00 := by decide
  have h4 : c10window.getD 4 0 = 0x00 := by decide
  have h5 : c10window.getD 5 0 = 0xc0 := by decide
  have h6 : c10window.getD 6 0 = 0x0c := by decide
  simp only [h0, h1, h2, h3, h4, h5, h6, c10record]
  norm_num
  decide

/-- The C1 failing input (trailer byte zeroed) decodes to the same
record as the intact window. -/
lemma c1window_decodes :
    decodeWindow [0x9c, 0x9a, 0x2b, 0xc2, 0xc5, 0x0b, 0x1f, 0xa8, 0x00] =
      DecodeResult.success c5record := by
  rw [decodeWindow_success _ (by decide)]
  congr 1
  have h0 : ([0x9c, 0x9a, 0x2b, 0xc2, 0xc5, 0x0b, 0x1f, 0xa8, 0x00] : List ℕ).getD 0 0 = 0x9c := by decide
  have h1 : ([0x9c, 0x9a, 0x2b, 0xc2, 0xc5, 0x0b, 0x1f, 0xa8, 0x00] : List ℕ).getD 1 0 = 0x9a := by decide
  have h2 : ([0x9c, 0x9a, 0x2b, 0xc2, 0xc5, 0x0b, 0x1f, 0xa8, 0x00] : List ℕ).getD 2 0 = 0x2b := by decide
  have h3 : ([0x9c, 0x9a, 0x2b, 0xc2, 0xc5, 0x0b, 0x1f, 0xa8, 0x00] : List ℕ).getD 3 0 = 0xc2 := by decide
  have h4 : ([0x9c, 0x9a, 0x2b, 0xc2, 0xc5, 0x0b, 0x1f, 0xa8, 0x00] : List ℕ).getD 4 0 = 0xc5 := by decide
  have h5 : ([0x9c, 0x9a, 0x2b, 0xc2, 0xc5, 0x0b, 0x1f, 0xa8, 0x00] : List ℕ).getD 5 0 = 0x0b := by decide
  have h6 : ([0x9c, 0x9a, 0x2b, 0xc2, 0xc5, 0x0b, 0x1f, 0xa8, 0x00] : List ℕ).getD 6 0 = 0x1f := by decide
  have e1 : ((154:ℕ) &&& 16) >>> 4 = 1 := by decide
  have e2 : ((154:ℕ) &&& 64) >>> 6 = 0 := by decide
  have e3 : (43:ℕ) <<< 4 ||| 194 >>> 4 = 700 := by decide
  have e4 : ((194:ℕ) &&& 15) <<< 8 ||| 197 = 709 := by decide
  have e5 : (31:ℕ) &&& 12 = 12 := by decide
  have e6 : (11:ℕ) &&& 192 = 0 := by decide
  have e7 : ((31:ℕ) &&& 48) >>> 4 = 1 := by decide
  have e8 : (31:ℕ) &&& 3 = 3 := by decide
  simp only [h0, h1, h2, h3, h4, h5, h6, c5record, e1, e2, e3, e4, e5, e6, e7, e8]
  norm_num

/-! ## Claims -/

/-- Claim C1 (code bug): the spec and the source's own comment require
byte 8 to be the complement of byte 7, failing with `DECODE_FAIL_MIC`
otherwise; but the compiled condition `b[7] == ~b[8]` is always false
under `int` promotion, so a window whose byte 8 is not the complement of
byte 7 sails through the format check: with byte 8 zeroed (and
`~0xa8 = 0x57 ≠ 0x00`), the decoder does not fail the format check and
instead accepts the frame outright. -/
theorem thermopro_c1_trailer_check_dead :
    decodeWindow [0x9c, 0x9a, 0x2b, 0xc2, 0xc5, 0x0b, 0x1f, 0xa8, 0x00] ≠
      DecodeResult.failMicFormat ∧
    (0x00 : ℕ) ≠ 255 - 0xa8 ∧
    decodeWindow [0x9c, 0x9a, 0x2b, 0xc2, 0xc5, 0x0b, 0x1f, 0xa8, 0x00] =
      DecodeResult.success c5record := by
  refine ⟨?_, by decide, c1window_decodes⟩
  intro h
  simp only [decodeWindow] at h
  rw [if_neg (trailer_check_false _ _)] at h
  split at h <;> simp at h

/-- Claim C2: the trailer byte (byte 8) never influences the decode
result.  First, the complement-check failure branch is unreachable for
every window (the `int`-promoted `~b[8]` is negative, `b[7]` is not);
second, two windows that agree on bytes 0–7 decode identically. -/
theorem thermopro_c2_trailer_byte_irrelevant :
    (∀ b : List ℕ, decodeWindow b ≠ DecodeResult.failMicFormat) ∧
    (∀ b b' : List ℕ, (∀ i, i < 8 → b.getD i 0 = b'.getD i 0) →
      decodeWindow b = decodeWindow b') := by
  constructor
  · intro b h
    simp only [decodeWindow] at h
    rw [if_neg (trailer_check_false _ _)] at h
    split at h <;> simp at h
  · intro b b' h
    simp only [decodeWindow]
    rw [if_neg (trailer_check_false _ _), if_neg (trailer_check_false _ _)]
    simp only [h 0 (by omega), h 1 (by omega), h 2 (by omega), h 3 (by omega),
      h 4 (by omega), h 5 (by omega), h 6 (by omega), h 7 (by omega)]

/-- Witness for C2 at the example window, with trailer byte `0x57`
replaced by `0x00`. -/
theorem thermopro_c2_witness :
    decodeWindow [0x9c, 0x9a, 0x2b, 0xc2, 0xc5, 0x0b, 0x1f, 0xa8, 0x57] =
      decodeWindow [0x9c, 0x9a, 0x2b, 0xc2, 0xc5, 0x0b, 0x1f, 0xa8, 0x00] :=
  thermopro_c2_trailer_byte_irrelevant.2 _ _ (by decide)

/-- Claim C4: past the (vacuous) trailer check, the decoder compares
`crc8(bytes 0–6, poly 0x07, init 0x00) ^ 0xdb` with byte 7: it fails
with the CRC-mismatch `DECODE_FAIL_MIC` exactly when they differ, and
otherwise goes on to extract a record. -/
theorem thermopro_c4_crc_check (b : List ℕ)
    (h : ¬((b.getD 7 0 : ℤ) = -(b.getD 8 0 : ℤ) - 1)) :
    (decodeWindow b = DecodeResult.failMicCrc ↔
      crc8 [b.getD 0 0, b.getD 1 0, b.getD 2 0, b.getD 3 0, b.getD 4 0,
        b.getD 5 0, b.getD 6 0] 0x07 0x00 ^^^ 0xdb ≠ b.getD 7 0) ∧
    (crc8 [b.getD 0 0, b.getD 1 0, b.getD 2 0, b.getD 3 0, b.getD 4 0,
        b.getD 5 0, b.getD 6 0] 0x07 0x00 ^^^ 0xdb = b.getD 7 0 →
      ∃ r, decodeWindow b = DecodeResult.success r) := by
  simp only [decodeWindow]
  rw [if_neg h]
  split
  next hc => exact ⟨⟨fun _ => hc, fun _ => rfl⟩, fun he => absurd he hc⟩
  next hc => exact ⟨⟨fun hcon => by simp at hcon, fun hne => absurd hne hc⟩, fun _ => ⟨_, rfl⟩⟩

/-- Witness for C4 at the example window. -/
theorem thermopro_c4_witness :
    (decodeWindow c5window = DecodeResult.failMicCrc ↔
      crc8 [c5window.getD 0 0, c5window.getD 1 0, c5window.getD 2 0, c5window.getD 3 0,
        c5window.getD 4 0, c5window.getD 5 0, c5window.getD 6 0] 0x07 0x00 ^^^ 0xdb ≠
        c5window.getD 7 0) ∧
    (crc8 [c5window.getD 0 0, c5window.getD 1 0, c5window.getD 2 0, c5window.getD 3 0,
        c5window.getD 4 0, c5window.getD 5 0, c5window.getD 6 0] 0x07 0x00 ^^^ 0xdb =
        c5window.getD 7 0 →
      ∃ r, decodeWindow c5window = DecodeResult.success r) :=
  thermopro_c4_crc_check c5window (by decide)

/-- Claim C6: with a single row, bit lengths up to 164 abort in the
too-short branch, lengths from 174 abort in the too-long branch, and any
length within `[165, 173]` gets past both length checks (regardless of
the bit content, since the checks precede the sync search). -/
theorem thermopro_c6_length_policy (row : List Bool) :
    (row.length ≤ 164 → thermopro_tp86xb_decode 1 row = DecodeResult.abortLengthShort) ∧
    (174 ≤ row.length → thermopro_tp86xb_decode 1 row = DecodeResult.abortLengthLong) ∧
    (165 ≤ row.length → row.length ≤ 173 →
      thermopro_tp86xb_decode 1 row ≠ DecodeResult.abortLengthShort ∧
      thermopro_tp86xb_decode 1 row ≠ DecodeResult.abortLengthLong ∧
      thermopro_tp86xb_decode 1 row ≠ DecodeResult.failSanity) := by
  simp only [thermopro_tp86xb_decode]
  rw [if_neg (by omega : ¬(1 < 1))]
  refine ⟨fun h => ?_, fun h => ?_, fun h1 h2 => ?_⟩
  · rw [if_pos (by omega)]
  · rw [if_neg (by omega), if_pos (by omega)]
  · rw [if_neg (by omega), if_neg (by omega)]
    split
    · simp
    · exact ⟨(decodeWindow_ne_aborts _).1, (decodeWindow_ne_aborts _).2.1,
        (decodeWindow_ne_aborts _).2.2.1⟩

/-- Witness for C6 at the boundary lengths 164, 174, 165 and 173. -/
theorem thermopro_c6_witness :
    thermopro_tp86xb_decode 1 (List.replicate 164 false) = DecodeResult.abortLengthShort ∧
    thermopro_tp86xb_decode 1 (List.replicate 174 false) = DecodeResult.abortLengthLong ∧
    thermopro_tp86xb_decode 1 (List.replicate 165 false) ≠ DecodeResult.abortLengthShort ∧
    thermopro_tp86xb_decode 1 (List.replicate 173 false) ≠ DecodeResult.abortLengthLong :=
  ⟨(thermopro_c6_length_policy _).1 (by decide),
   (thermopro_c6_length_policy _).2.1 (by decide),
   ((thermopro_c6_length_policy _).2.2 (by decide) (by decide)).1,
   ((thermopro_c6_length_policy _).2.2 (by decide) (by decide)).2.1⟩

/-- Claim C3 counterexample: on `c3row` the sync word is found at offset
70, the 72-bit window after it would need bits up to index 173 in a
165-bit row, yet the decoder does not fail with the too-short error — it
extracts the (zero-padded) window and fails only at the CRC comparison. -/
theorem thermopro_c3_counterexample :
    bitbuffer_search c3row preambleBits = 70 ∧
    c3row.length = 165 ∧
    165 < 70 + 32 + 72 ∧
    thermopro_tp86xb_decode 1 c3row = DecodeResult.failMicCrc := by
  refine ⟨by decide, by decide, by omega, by decide⟩

/-- Claim C3 (amended): the decoder has no trailing-length check: when
the sync word is found but the 72-bit window after it would run past the
row end, decode does not abort with the length error; it extracts the
window (bits past the row end reading as zero) and hands it to
validation. -/
theorem thermopro_c3_no_trailing_check (row : List Bool)
    (h1 : 165 ≤ row.length) (h2 : row.length ≤ 173)
    (h3 : bitbuffer_search row preambleBits < row.length)
    (h4 : row.length < bitbuffer_search row preambleBits + 32 + 72) :
    thermopro_tp86xb_decode 1 row =
      decodeWindow (bitbuffer_extract_bytes row (bitbuffer_search row preambleBits + 32) 9) ∧
    thermopro_tp86xb_decode 1 row ≠ DecodeResult.abortLengthShort ∧
    thermopro_tp86xb_decode 1 row ≠ DecodeResult.abortLengthLong := by
  simp only [thermopro_tp86xb_decode]
  rw [if_neg (by omega : ¬(1 < 1)), if_neg (by omega), if_neg (by omega), if_neg (by omega)]
  exact ⟨rfl, (decodeWindow_ne_aborts _).1, (decodeWindow_ne_aborts _).2.1⟩

/-- Claim C5 counterexample: the concrete window decodes successfully,
but its internal temperature is 20.0 °C, not the 17.6 °C the spec's
arithmetic asserts (`0x2bc = 700`, and `(700 - 500) * 0.1 = 20.0`). -/
theorem thermopro_c5_counterexample :
    decodeWindow c5window = DecodeResult.success c5record ∧
    c5record.temperature_int_C ≠ 176 / 10 := by
  refine ⟨c5window_decodes, ?_⟩
  show (20 : ℚ) ≠ 176 / 10
  norm_num

/-- Claim C5 (amended): the scenario window decodes with `id = 0x9c`,
`internal_raw = (0x2b<<4)|(0xc2>>4) = 0x2bc`, internal temperature
`(0x2bc - 500) * 0.1 = 20.0` (not 17.6), ambient analogous, and the
checksum stage accepts byte 7 (`0xa8`) as `crc8(bytes 0..6) ^ 0xdb`. -/
theorem thermopro_c5_scenario :
    thermopro_tp86xb_decode 1 c5row = DecodeResult.success c5record ∧
    c5record.id = 0x9c ∧
    (0x2b <<< 4 ||| 0xc2 >>> 4 : ℕ) = 0x2bc ∧
    c5record.temperature_int_C = (((0x2bc : ℕ) : ℚ) - 500) * (1 / 10) ∧
    c5record.temperature_int_C = 20 ∧
    ((0xc2 &&& 0x0f) <<< 8 ||| 0xc5 : ℕ) = 0x2c5 ∧
    c5record.temperature_amb_C = (((0x2c5 : ℕ) : ℚ) - 500) * (1 / 10) ∧
    crc8 [0x9c, 0x9a, 0x2b, 0xc2, 0xc5, 0x0b, 0x1f] 0x07 0x00 ^^^ 0xdb = 0xa8 := by
  refine ⟨?_, by decide, by decide, ?_, ?_, by decide, ?_, by decide⟩
  · have hlen : c5row.length = 165 := by decide
    have hsearch : bitbuffer_search c5row preambleBits = 0 := by decide
    have hext : bitbuffer_extract_bytes c5row (0 + 32) 9 = c5window := by decide
    simp only [thermopro_tp86xb_decode, hlen, hsearch]
    rw [if_neg (by omega : ¬(1 < 1)), if_neg (by omega), if_neg (by omega),
      if_neg (by omega), hext]
    exact c5window_decodes
  · show (20 : ℚ) = (((0x2bc : ℕ) : ℚ) - 500) * (1 / 10)
    norm_num
  · show (20 : ℚ) = 20
    norm_num
  · show (209 / 10 : ℚ) = (((0x2c5 : ℕ) : ℚ) - 500) * (1 / 10)
    norm_num

/-- Claim C7: for a window that validates, the internal raw value is
byte 2 followed by the top nibble of byte 3 (a 12-bit MSB-first value,
arithmetically `b2 * 2^4 + b3 / 2^4`), the ambient raw value is the
bottom nibble of byte 3 followed by byte 4 (`(b3 mod 2^4) * 2^8 + b4`),
and both are converted to Celsius by the same `(raw - 500) * 0.1` map. -/
theorem thermopro_c7_field_extraction (b : List ℕ) (hb : ∀ i, i < 9 → b.getD i 0 < 256)
    (r : MeasurementRecord) (h : decodeWindow b = DecodeResult.success r) :
    r.temperature_int_C =
      (((b.getD 2 0 * 2 ^ 4 + b.getD 3 0 / 2 ^ 4 : ℕ) : ℚ) - 500) * (1 / 10) ∧
    r.temperature_amb_C =
      (((b.getD 3 0 % 2 ^ 4 * 2 ^ 8 + b.getD 4 0 : ℕ) : ℚ) - 500) * (1 / 10) := by
  simp only [decodeWindow] at h
  rw [if_neg (trailer_check_false _ _)] at h
  split at h
  · exact absurd h (by simp)
  · have hr := DecodeResult.success.inj h
    subst hr
    constructor
    · show (((b.getD 2 0 <<< 4 ||| b.getD 3 0 >>> 4 : ℕ) : ℚ) - 500) * (1 / 10) = _
      rw [concat_internal _ (hb 2 (by omega)) _ (hb 3 (by omega))]
    · show ((((b.getD 3 0 &&& 0x0f) <<< 8 ||| b.getD 4 0 : ℕ) : ℚ) - 500) * (1 / 10) = _
      rw [concat_ambient _ (hb 3 (by omega)) _ (hb 4 (by omega))]

/-- Witness for C7 at the example window. -/
theorem thermopro_c7_witness :
    c5record.temperature_int_C =
      (((c5window.getD 2 0 * 2 ^ 4 + c5window.getD 3 0 / 2 ^ 4 : ℕ) : ℚ) - 500) * (1 / 10) ∧
    c5record.temperature_amb_C =
      (((c5window.getD 3 0 % 2 ^ 4 * 2 ^ 8 + c5window.getD 4 0 : ℕ) : ℚ) - 500) * (1 / 10) :=
  thermopro_c7_field_extraction c5window (by decide) c5record c5window_decodes

/-- Claim C9: in every successfully decoded record, the probe battery
field is present iff the probe flag bits are set, the booster battery
field is present iff the booster flag bits are set, and the docked field
is present iff the docked bit is set; in particular a probe-only frame
reports `probe_batery` and omits `booster_battery`, and vice versa. -/
theorem thermopro_c9_conditional_fields (b : List ℕ) (r : MeasurementRecord)
    (h : decodeWindow b = DecodeResult.success r) :
    (r.probe_batery ≠ none ↔ (b.getD 6 0 &&& 0x0c) = 0x0c) ∧
    (r.booster_battery ≠ none ↔ (b.getD 5 0 &&& 0xc0) = 0xc0) ∧
    (r.is_docked ≠ none ↔ (b.getD 1 0 &&& 0x40) >>> 6 ≠ 0) ∧
    ((b.getD 6 0 &&& 0x0c) = 0x0c ∧ (b.getD 5 0 &&& 0xc0) ≠ 0xc0 →
      r.probe_batery ≠ none ∧ r.booster_battery = none) ∧
    ((b.getD 5 0 &&& 0xc0) = 0xc0 ∧ (b.getD 6 0 &&& 0x0c) ≠ 0x0c →
      r.booster_battery ≠ none ∧ r.probe_batery = none) := by
  simp only [decodeWindow] at h
  rw [if_neg (trailer_check_false _ _)] at h
  split at h
  · exact absurd h (by simp)
  · have hr := DecodeResult.success.inj h
    subst hr
    by_cases hp : (b.getD 6 0 &&& 0x0c) = 0x0c <;>
      by_cases hbo : (b.getD 5 0 &&& 0xc0) = 0xc0 <;>
      by_cases hd : (b.getD 1 0 &&& 0x40) >>> 6 = 0 <;>
      simp [hp, hbo, hd]

/-- Witness for C9 at the example window (a probe-only frame). -/
theorem thermopro_c9_witness :
    (c5record.probe_batery ≠ none ↔ (c5window.getD 6 0 &&& 0x0c) = 0x0c) ∧
    (c5record.booster_battery ≠ none ↔ (c5window.getD 5 0 &&& 0xc0) = 0xc0) ∧
    (c5record.is_docked ≠ none ↔ (c5window.getD 1 0 &&& 0x40) >>> 6 ≠ 0) ∧
    ((c5window.getD 6 0 &&& 0x0c) = 0x0c ∧ (c5window.getD 5 0 &&& 0xc0) ≠ 0xc0 →
      c5record.probe_batery ≠ none ∧ c5record.booster_battery = none) ∧
    ((c5window.getD 5 0 &&& 0xc0) = 0xc0 ∧ (c5window.getD 6 0 &&& 0x0c) ≠ 0x0c →
      c5record.booster_battery ≠ none ∧ c5record.probe_batery = none) :=
  thermopro_c9_conditional_fields c5window c5record c5window_decodes

/-- Claim C10: a window can pass both integrity checks while flagging
both roles at once (byte 5 top bits `0b11` and byte 6 bits `0x0c` set):
`c10window` is one; and every such window yields a record with both
`is_probe` and `is_booster` reported and both battery fields included —
the decoder enforces no mutual exclusion between the roles. -/
theorem thermopro_c10_dual_roles :
    (∃ r, decodeWindow c10window = DecodeResult.success r ∧
      (c10window.getD 5 0 &&& 0xc0) = 0xc0 ∧ (c10window.getD 6 0 &&& 0x0c) = 0x0c) ∧
    (∀ b : List ℕ, ∀ r : MeasurementRecord, decodeWindow b = DecodeResult.success r →
      (b.getD 5 0 &&& 0xc0) = 0xc0 → (b.getD 6 0 &&& 0x0c) = 0x0c →
      r.is_probe = some 1 ∧ r.is_booster = some 1 ∧
      r.probe_batery ≠ none ∧ r.booster_battery ≠ none) := by
  constructor
  · exact ⟨c10record, c10window_decodes, by decide, by decide⟩
  · intro b r h hbo hp
    simp only [decodeWindow] at h
    rw [if_neg (trailer_check_false _ _)] at h
    split at h
    · exact absurd h (by simp)
    · have hr := DecodeResult.success.inj h
      subst hr
      simp [hp, hbo]

/-- Witness for C10's universal part at the dual-role window. -/
theorem thermopro_c10_witness :
    c10record.is_probe = some 1 ∧ c10record.is_booster = some 1 ∧
    c10record.probe_batery ≠ none ∧ c10record.booster_battery ≠ none :=
  thermopro_c10_dual_roles.2 c10window c10record c10window_decodes (by decide) (by decide)

/-- Witness for the amended C3 at the concrete row `c3row`. -/
theorem thermopro_c3_witness :
    thermopro_tp86xb_decode 1 c3row =
      decodeWindow (bitbuffer_extract_bytes c3row (bitbuffer_search c3row preambleBits + 32) 9) ∧
    thermopro_tp86xb_decode 1 c3row ≠ DecodeResult.abortLengthShort ∧
    thermopro_tp86xb_decode 1 c3row ≠ DecodeResult.abortLengthLong :=
  thermopro_c3_no_trailing_check c3row (by decide) (by decide) (by decide) (by decide)

/-- Claim C8: flipping any single bit of any of bytes 0–6 of a window
that validates successfully makes validation fail at the CRC comparison
(the CRC-8 with polynomial `0x07`, xored with `0xdb`, detects every
single-bit change in the covered bytes, and byte 7 is untouched). -/
theorem thermopro_c8_bit_flip_detected (b : List ℕ) (hlen : b.length = 9)
    (hb : ∀ a ∈ b, a < 256) (r : MeasurementRecord)
    (h : decodeWindow b = DecodeResult.success r)
    (i j : ℕ) (hi : i < 7) (hj : j < 8) :
    decodeWindow (b.set i (b.getD i 0 ^^^ 2 ^ j)) = DecodeResult.failMicCrc := by
  obtain ⟨x0, x1, x2, x3, x4, x5, x6, x7, x8, rfl⟩ :
      ∃ x0 x1 x2 x3 x4 x5 x6 x7 x8, b = [x0, x1, x2, x3, x4, x5, x6, x7, x8] := by
    rcases b with _ | ⟨x0, _ | ⟨x1, _ | ⟨x2, _ | ⟨x3, _ | ⟨x4, _ | ⟨x5, _ | ⟨x6, _ |
      ⟨x7, _ | ⟨x8, _ | ⟨x9, t⟩⟩⟩⟩⟩⟩⟩⟩⟩⟩ <;>
      simp only [List.length_cons, List.length_nil] at hlen <;>
      first
      | exact ⟨x0, x1, x2, x3, x4, x5, x6, x7, x8, rfl⟩
      | omega
  have hall : ∀ a ∈ [x0, x1, x2, x3, x4, x5, x6], a < 256 := by
    intro a ha
    refine hb a ?_
    simp only [List.mem_cons] at ha ⊢
    tauto
  have hv : (2 : ℕ) ^ j < 256 := by
    have h1 : (2 : ℕ) ^ j ≤ 2 ^ 7 := Nat.pow_le_pow_right (by norm_num) (by omega)
    have h2 : (2 : ℕ) ^ 7 = 128 := by norm_num
    omega
  have hv0 : (2 : ℕ) ^ j ≠ 0 := (pow_pos (by norm_num : (0:ℕ) < 2) j).ne'
  have hcrc : crc8 [x0, x1, x2, x3, x4, x5, x6] 0x07 0x00 ^^^ 0xdb = x7 := by
    by_contra hne
    have hfail : decodeWindow [x0, x1, x2, x3, x4, x5, x6, x7, x8] =
        DecodeResult.failMicCrc := by
      simp only [decodeWindow, getD9_0, getD9_1, getD9_2, getD9_3, getD9_4, getD9_5,
        getD9_6, getD9_7, getD9_8]
      rw [if_neg (trailer_check_false _ _), if_pos hne]
    rw [hfail] at h
    exact absurd h (by simp)
  interval_cases i
  · show decodeWindow [x0 ^^^ 2 ^ j, x1, x2, x3, x4, x5, x6, x7, x8] =
      DecodeResult.failMicCrc
    simp only [decodeWindow, getD9_0, getD9_1, getD9_2, getD9_3, getD9_4, getD9_5,
      getD9_6, getD9_7, getD9_8]
    rw [if_neg (trailer_check_false _ _), if_pos ?_]
    show crc8 [x0 ^^^ 2 ^ j, x1, x2, x3, x4, x5, x6] 0x07 0x00 ^^^ 0xdb ≠ x7
    rw [← hcrc]
    intro heq
    exact crc8_set_ne [] [x1, x2, x3, x4, x5, x6] x0 (2 ^ j) hall hv hv0
      (xor_cancel_right heq)
  · show decodeWindow [x0, x1 ^^^ 2 ^ j, x2, x3, x4, x5, x6, x7, x8] =
      DecodeResult.failMicCrc
    simp only [decodeWindow, getD9_0, getD9_1, getD9_2, getD9_3, getD9_4, getD9_5,
      getD9_6, getD9_7, getD9_8]
    rw [if_neg (trailer_check_false _ _), if_pos ?_]
    show crc8 [x0, x1 ^^^ 2 ^ j, x2, x3, x4, x5, x6] 0x07 0x00 ^^^ 0xdb ≠ x7
    rw [← hcrc]
    intro heq
    exact crc8_set_ne [x0] [x2, x3, x4, x5, x6] x1 (2 ^ j) hall hv hv0
      (xor_cancel_right heq)
  · show decodeWindow [x0, x1, x2 ^^^ 2 ^ j, x3, x4, x5, x6, x7, x8] =
      DecodeResult.failMicCrc
    simp only [decodeWindow, getD9_0, getD9_1, getD9_2, getD9_3, getD9_4, getD9_5,
      getD9_6, getD9_7, getD9_8]
    rw [if_neg (trailer_check_false _ _), if_pos ?_]
    show crc8 [x0, x1, x2 ^^^ 2 ^ j, x3, x4, x5, x6] 0x07 0x00 ^^^ 0xdb ≠ x7
    rw [← hcrc]
    intro heq
    exact crc8_set_ne [x0, x1] [x3, x4, x5, x6] x2 (2 ^ j) hall hv hv0
      (xor_cancel_right heq)
  · show decodeWindow [x0, x1, x2, x3 ^^^ 2 ^ j, x4, x5, x6, x7, x8] =
      DecodeResult.failMicCrc
    simp only [decodeWindow, getD9_0, getD9_1, getD9_2, getD9_3, getD9_4, getD9_5,
      getD9_6, getD9_7, getD9_8]
    rw [if_neg (trailer_check_false _ _), if_pos ?_]
    show crc8 [x0, x1, x2, x3 ^^^ 2 ^ j, x4, x5, x6] 0x07 0x00 ^^^ 0xdb ≠ x7
    rw [← hcrc]
    intro heq
    exact crc8_set_ne [x0, x1, x2] [x4, x5, x6] x3 (2 ^ j) hall hv hv0
      (xor_cancel_right heq)
  · show decodeWindow [x0, x1, x2, x3, x4 ^^^ 2 ^ j, x5, x6, x7, x8] =
      DecodeResult.failMicCrc
    simp only [decodeWindow, getD9_0, getD9_1, getD9_2, getD9_3, getD9_4, getD9_5,
      getD9_6, getD9_7, getD9_8]
    rw [if_neg (trailer_check_false _ _), if_pos ?_]
    show crc8 [x0, x1, x2, x3, x4 ^^^ 2 ^ j, x5, x6] 0x07 0x00 ^^^ 0xdb ≠ x7
    rw [← hcrc]
    intro heq
    exact crc8_set_ne [x0, x1, x2, x3] [x5, x6] x4 (2 ^ j) hall hv hv0
      (xor_cancel_right heq)
  · show decodeWindow [x0, x1, x2, x3, x4, x5 ^^^ 2 ^ j, x6, x7, x8] =
      DecodeResult.failMicCrc
    simp only [decodeWindow, getD9_0, getD9_1, getD9_2, getD9_3, getD9_4, getD9_5,
      getD9_6, getD9_7, getD9_8]
    rw [if_neg (trailer_check_false _ _), if_pos ?_]
    show crc8 [x0, x1, x2, x3, x4, x5 ^^^ 2 ^ j, x6] 0x07 0x00 ^^^ 0xdb ≠ x7
    rw [← hcrc]
    intro heq
    exact crc8_set_ne [x0, x1, x2, x3, x4] [x6] x5 (2 ^ j) hall hv hv0
      (xor_cancel_right heq)
  · show decodeWindow [x0, x1, x2, x3, x4, x5, x6 ^^^ 2 ^ j, x7, x8] =
      DecodeResult.failMicCrc
    simp only [decodeWindow, getD9_0, getD9_1, getD9_2, getD9_3, getD9_4, getD9_5,
      getD9_6, getD9_7, getD9_8]
    rw [if_neg (trailer_check_false _ _), if_pos ?_]
    show crc8 [x0, x1, x2, x3, x4, x5, x6 ^^^ 2 ^ j] 0x07 0x00 ^^^ 0xdb ≠ x7
    rw [← hcrc]
    intro heq
    exact crc8_set_ne [x0, x1, x2, x3, x4, x5] [] x6 (2 ^ j) hall hv hv0
      (xor_cancel_right heq)

/-- Witness for C8: flipping the top bit of byte 0 of the valid example
window makes validation fail at the CRC comparison. -/
theorem thermopro_c8_witness :
    decodeWindow (c5window.set 0 (c5window.getD 0 0 ^^^ 2 ^ 7)) = DecodeResult.failMicCrc :=
  thermopro_c8_bit_flip_detected c5window (by decide) (by decide) c5record
    c5window_decodes 0 7 (by decide) (by decide)

end ThermoPro
